import Mathlib

/-!
Verification of the FlagDash JS/TS SDK core client
(`@flagdash/sdk` browser client, `@flagdash/node` server client)
against its natural-language specification.

Each section shallowly embeds the relevant TypeScript into Lean:
pure helpers become Lean functions, the HTTP layer becomes an
oracle `Request → Except Unit <response>`, the stateful client
becomes explicit state passing, and timers become explicit events.
-/

set_option maxRecDepth 4000

namespace FlagDash

/-! ## JavaScript value fragment used by evaluation contexts

`EvaluationContext` in `types.ts` is
`{ user?: { id: string, [attr]: scalar }, [attr]: scalar }`.
We model scalar JS values and one level of object nesting, which is
exactly what `buildContextParams` inspects. -/

/-- A scalar JavaScript value (string / number / boolean / null). -/
inductive JScalar where
  | str (s : String)
  | num (n : Int)
  | bool (b : Bool)
  | null
  deriving DecidableEq, Repr

/-- A top-level JavaScript value inside an evaluation context: a scalar or
a (non-null) object of scalar fields. -/
inductive JVal where
  | scalar (v : JScalar)
  | obj (fields : List (String × JScalar))
  deriving DecidableEq, Repr

/-- JS `String(v)` on a scalar. -/
def JScalar.toJSString : JScalar → String
  | .str s => s
  | .num n => toString n
  | .bool true => "true"
  | .bool false => "false"
  | .null => "null"

/-- JS `String(v)` on a context value (`String` of a plain object is
`"[object Object]"`). -/
def JVal.toJSString : JVal → String
  | .scalar v => v.toJSString
  | .obj _ => "[object Object]"

/-- An evaluation context: ordered fields, as iterated by `Object.entries`. -/
abbrev EvaluationContext := List (String × JVal)

/-! ## `encodeURIComponent`

JS `encodeURIComponent` leaves the unreserved characters
`A–Z a–z 0–9 - _ . ! ~ * ' ( )` intact and percent-encodes every other
character as the uppercase-hex UTF-8 bytes. We model it on the UTF-8
byte sequence of the string. -/

/-- UTF-8 encoding of one Unicode code point, as byte values. -/
def utf8Bytes (c : Char) : List Nat :=
  let n := c.toNat
  if n < 128 then [n]
  else if n < 2048 then [192 + n / 64, 128 + n % 64]
  else if n < 65536 then [224 + n / 4096, 128 + (n / 64) % 64, 128 + n % 64]
  else [240 + n / 262144, 128 + (n / 4096) % 64, 128 + (n / 64) % 64, 128 + n % 64]

/-- UTF-8 byte sequence of a string. -/
def stringUTF8 (s : String) : List Nat :=
  (s.data.map utf8Bytes).flatten

/-- Bytes `encodeURIComponent` leaves unescaped: ASCII alphanumerics and
`- _ . ! ~ * ' ( )`. -/
def isUnreservedByte (b : Nat) : Bool :=
  (65 ≤ b && b ≤ 90) || (97 ≤ b && b ≤ 122) || (48 ≤ b && b ≤ 57) ||
  b == 45 || b == 95 || b == 46 || b == 33 || b == 126 ||
  b == 42 || b == 39 || b == 40 || b == 41

/-- Uppercase hexadecimal digit. -/
def hexDigitChar (n : Nat) : Char :=
  if n < 10 then Char.ofNat (48 + n) else Char.ofNat (55 + n)

/-- `%HH` escape of one byte, uppercase hex. -/
def pctEncodeByte (b : Nat) : String :=
  String.mk ['%', hexDigitChar (b / 16), hexDigitChar (b % 16)]

/-- Model of JS `encodeURIComponent`. -/
def encodeURIComponent (s : String) : String :=
  String.join (stringUTF8 s |>.map fun b =>
    if isUnreservedByte b then String.mk [Char.ofNat b] else pctEncodeByte b)

/-! ## `buildContextParams` (src/packages/sdk client and node client, identical)

```ts
function buildContextParams(context: EvaluationContext): string {
  const parts: string[] = [];
  for (const [key, value] of Object.entries(context)) {
    if (key === "user" && typeof value === "object" && value !== null) {
      for (const [uKey, uVal] of Object.entries(value)) {
        const paramKey = uKey === "id" ? "user_id" : `user_${uKey}`;
        parts.push(`${encodeURIComponent(paramKey)}=${encodeURIComponent(String(uVal))}`);
      }
    } else {
      parts.push(`${encodeURIComponent(key)}=${encodeURIComponent(String(value))}`);
    }
  }
  return parts.join("&");
}
```

In our value model, `typeof value === "object" && value !== null` holds
exactly when the value is `JVal.obj` (null is a scalar). -/

/-- The pairs the inner loop pushes for one top-level entry. -/
def entryParams (key : String) (value : JVal) : List String :=
  match value with
  | .obj fields =>
    if key = "user" then
      fields.map fun u =>
        let paramKey := if u.1 = "id" then "user_id" else "user_" ++ u.1
        encodeURIComponent paramKey ++ "=" ++ encodeURIComponent u.2.toJSString
    else
      [encodeURIComponent key ++ "=" ++ encodeURIComponent value.toJSString]
  | .scalar _ =>
      [encodeURIComponent key ++ "=" ++ encodeURIComponent value.toJSString]

/-- `buildContextParams`, with the `parts` accumulator made explicit. -/
def buildContextParams (context : EvaluationContext) : String :=
  let parts := context.foldl (fun parts kv => parts ++ entryParams kv.1 kv.2) []
  String.intercalate "&" parts

/-! Spec-side description of the encoder, written from the spec's words
(§4.1): one pair per entry in insertion order; an object-valued `user`
entry contributes one pair per nested property, named `user_id` for the
nested `id` and `user_<name>` otherwise; every other entry contributes
`<name>=<value>` with non-string values stringified; no key is filtered. -/

/-- Pairs one entry contributes according to the spec's wording. -/
def specEntryPairs (name : String) (value : JVal) : List String :=
  match value with
  | .obj nested =>
    if name = "user" then
      nested.map fun p =>
        encodeURIComponent (if p.1 = "id" then "user_id" else "user_" ++ p.1)
          ++ "=" ++ encodeURIComponent p.2.toJSString
    else [encodeURIComponent name ++ "=" ++ encodeURIComponent value.toJSString]
  | .scalar _ => [encodeURIComponent name ++ "=" ++ encodeURIComponent value.toJSString]

/-- All pairs of a context according to the spec, in insertion order. -/
def specContextPairs (context : EvaluationContext) : List String :=
  (context.map fun kv => specEntryPairs kv.1 kv.2).flatten

lemma entryParams_eq_spec (key : String) (v : JVal) :
    entryParams key v = specEntryPairs key v := by
  cases v <;> simp [entryParams, specEntryPairs]

lemma foldl_append_entryParams (context : EvaluationContext) (acc : List String) :
    context.foldl (fun parts kv => parts ++ entryParams kv.1 kv.2) acc =
      acc ++ (context.map fun kv => entryParams kv.1 kv.2).flatten := by
  induction context generalizing acc with
  | nil => simp
  | cons kv rest ih => simp [List.foldl_cons, ih, List.append_assoc]

/-! ## The browser client (`src/packages/sdk`, `FlagDashClient`)

The HTTP layer (`this.request<T>(path)`) becomes an oracle: one function
per call-site response shape, taking the issued `Request` and returning
either the parsed body (`Except.ok`) or a transport failure — non-success
HTTP status or timeout — (`Except.error ()`), which in JS is a rejected
promise.  Every facade operation becomes a function of the oracle and the
client state returning the settled promise outcome (`Except.error` = the
operation's promise rejected), the successor state, the list of issued
requests, and the names of the events emitted. -/

/-- An HTTP request issued through `request(path)`: `fetch` with no
`init` uses method GET and no body; `path` is relative to
`<baseUrl>/api/v1`. -/
structure Request where
  method : String
  path : String
  body : Option String
  deriving DecidableEq, Repr

/-- The request each facade call builds: a GET with no body. -/
def getReq (path : String) : Request := ⟨"GET", path, none⟩

/-- Response of `GET /flags/{key}` (`FlagDetailResponse` in types.ts);
absent (`undefined`/`null`) JSON fields are `none`. -/
structure FlagDetailResponse where
  key : String
  value : Option JVal
  reason : Option String
  variation_key : Option String
  deriving DecidableEq, Repr

/-- An AI config file (`AiConfig` in types.ts). -/
structure AiConfig where
  file_name : String
  file_type : String
  content : String
  folder : Option String
  deriving DecidableEq, Repr

/-- The network oracle: one entry per `this.request<T>` call-site shape.
`Except.error ()` models a rejected request promise (non-2xx or timeout). -/
structure Net where
  /-- `GET /flags` (optionally with context query): `res.flags`. -/
  flagsAll : Request → Except Unit (List (String × JVal))
  /-- `GET /flags/{key}` (optionally with context query). -/
  flagOne : Request → Except Unit FlagDetailResponse
  /-- `GET /configs`: `res.configs` as (key, value) items. -/
  configsAll : Request → Except Unit (List (String × JVal))
  /-- `GET /configs/{key}`: `res.value`. -/
  configOne : Request → Except Unit (Option JVal)
  /-- `GET /ai-configs/{fileName}`: `res.ai_config`. -/
  aiOne : Request → Except Unit AiConfig
  /-- `GET /ai-configs`: `res.ai_configs`. -/
  aiAll : Request → Except Unit (List AiConfig)

/-- Mutable state of `FlagDashClient` relevant to the facade:
`this.cache`, `this.configCache`, `this.ready`. -/
structure ClientState where
  cache : List (String × JVal)
  configCache : List (String × JVal)
  ready : Bool
  deriving DecidableEq, Repr

/-- Outcome of one facade operation: the settled promise
(`Except.error ()` = the promise rejected), the state after the call, the
requests issued, and the event names emitted, in order. -/
structure OpResult (α : Type) where
  res : Except Unit α
  st : ClientState
  reqs : List Request
  emits : List String
  deriving Repr

/-- Whether a settled promise resolved (did not reject). -/
def promiseResolves {α : Type} : Except Unit α → Bool
  | .ok _ => true
  | .error _ => false

/-- `refreshFlags()`: fetch `/flags`, replace the cache wholesale, emit
`flags_updated` once ready; on failure emit `error` and rethrow. -/
def refreshFlags (net : Net) (s : ClientState) : OpResult Unit :=
  let req := getReq "/flags"
  match net.flagsAll req with
  | .ok flags =>
      { res := .ok (), st := { s with cache := flags }, reqs := [req],
        emits := if s.ready then ["flags_updated"] else [] }
  | .error e =>
      { res := .error e, st := s, reqs := [req], emits := ["error"] }

/-- `refreshConfigs()`: fetch `/configs`, rebuild the config cache, emit
`configs_updated` and the legacy `config_updated` once ready; on failure
emit `error` and rethrow. -/
def refreshConfigs (net : Net) (s : ClientState) : OpResult Unit :=
  let req := getReq "/configs"
  match net.configsAll req with
  | .ok items =>
      { res := .ok (), st := { s with configCache := items }, reqs := [req],
        emits := if s.ready then ["configs_updated", "config_updated"] else [] }
  | .error e =>
      { res := .error e, st := s, reqs := [req], emits := ["error"] }

/-- The request path `flag`/`flagDetail` build for a single key with an
optional context query string. -/
def flagPath (key : String) (qs : String) : String :=
  "/flags/" ++ encodeURIComponent key ++ (if qs = "" then "" else "?" ++ qs)

/-- `flag(key, context?, defaultValue?)`. -/
def flag (net : Net) (s : ClientState) (key : String)
    (context : Option EvaluationContext) (defaultValue : Option JVal) :
    OpResult (Option JVal) :=
  -- if (!context && this.cache[key] !== undefined) return this.cache[key]
  if context.isNone && (s.cache.lookup key).isSome then
    { res := .ok (s.cache.lookup key), st := s, reqs := [], emits := [] }
  else
    match context with
    | some ctx =>
      let req := getReq (flagPath key (buildContextParams ctx))
      match net.flagOne req with
      | .ok r =>
        { res := .ok (r.value.orElse fun _ => defaultValue),
          st := s, reqs := [req], emits := [] }
      | .error _ =>
        { res := .ok ((s.cache.lookup key).orElse fun _ => defaultValue),
          st := s, reqs := [req], emits := [] }
    | none =>
      if s.ready then
        { res := .ok ((s.cache.lookup key).orElse fun _ => defaultValue),
          st := s, reqs := [], emits := [] }
      else
        -- await this.refreshFlags()  (its rejection propagates)
        let r := refreshFlags net s
        match r.res with
        | .error e => { res := .error e, st := r.st, reqs := r.reqs, emits := r.emits }
        | .ok _ =>
          { res := .ok ((r.st.cache.lookup key).orElse fun _ => defaultValue),
            st := r.st, reqs := r.reqs, emits := r.emits }

/-- `allFlags(context?)`. -/
def allFlags (net : Net) (s : ClientState) (context : Option EvaluationContext) :
    OpResult (List (String × JVal)) :=
  match context with
  | some ctx =>
    let qs := buildContextParams ctx
    let req := getReq ("/flags" ++ (if qs = "" then "" else "?" ++ qs))
    -- no try/catch around this request
    match net.flagsAll req with
    | .ok flags => { res := .ok flags, st := s, reqs := [req], emits := [] }
    | .error e => { res := .error e, st := s, reqs := [req], emits := [] }
  | none =>
    if s.ready then
      { res := .ok s.cache, st := s, reqs := [], emits := [] }
    else
      let r := refreshFlags net s
      match r.res with
      | .error e => { res := .error e, st := r.st, reqs := r.reqs, emits := r.emits }
      | .ok _ => { res := .ok r.st.cache, st := r.st, reqs := r.reqs, emits := r.emits }

/-- Result of `flagDetail`. -/
structure FlagDetail where
  key : String
  value : Option JVal
  reason : String
  variationKey : Option String
  deriving DecidableEq, Repr

/-- `flagDetail(key, context?, defaultValue?)`. -/
def flagDetail (net : Net) (s : ClientState) (key : String)
    (context : Option EvaluationContext) (defaultValue : Option JVal) :
    OpResult FlagDetail :=
  let qs := match context with | some ctx => buildContextParams ctx | none => ""
  let req := getReq (flagPath key qs)
  match net.flagOne req with
  | .ok r =>
    { res := .ok { key := r.key, value := r.value.orElse fun _ => defaultValue,
                   reason := r.reason.getD "default",
                   variationKey := r.variation_key },
      st := s, reqs := [req], emits := [] }
  | .error _ =>
    { res := .ok { key := key, value := defaultValue, reason := "default",
                   variationKey := none },
      st := s, reqs := [req], emits := [] }

/-- The tail of `config()` after the optional not-ready refresh: re-check
the cache, then fall back to a caught single-key fetch. -/
def configTail (net : Net) (s : ClientState) (key : String)
    (defaultValue : Option JVal) (reqs0 : List Request) (emits0 : List String) :
    OpResult (Option JVal) :=
  if (s.configCache.lookup key).isSome then
    { res := .ok (s.configCache.lookup key), st := s, reqs := reqs0, emits := emits0 }
  else
    let req := getReq ("/configs/" ++ encodeURIComponent key)
    match net.configOne req with
    | .ok v =>
      { res := .ok (v.orElse fun _ => defaultValue),
        st := s, reqs := reqs0 ++ [req], emits := emits0 }
    | .error _ =>
      { res := .ok defaultValue, st := s, reqs := reqs0 ++ [req], emits := emits0 }

/-- `config(key, defaultValue?)`. -/
def config (net : Net) (s : ClientState) (key : String)
    (defaultValue : Option JVal) : OpResult (Option JVal) :=
  if (s.configCache.lookup key).isSome then
    { res := .ok (s.configCache.lookup key), st := s, reqs := [], emits := [] }
  else if s.ready then
    configTail net s key defaultValue [] []
  else
    -- await this.refreshConfigs()  (its rejection propagates)
    let r := refreshConfigs net s
    match r.res with
    | .error e => { res := .error e, st := r.st, reqs := r.reqs, emits := r.emits }
    | .ok _ => configTail net r.st key defaultValue r.reqs r.emits

/-- `allConfigs()`. -/
def allConfigs (net : Net) (s : ClientState) : OpResult (List (String × JVal)) :=
  if s.ready then
    { res := .ok s.configCache, st := s, reqs := [], emits := [] }
  else
    let r := refreshConfigs net s
    match r.res with
    | .error e => { res := .error e, st := r.st, reqs := r.reqs, emits := r.emits }
    | .ok _ => { res := .ok r.st.configCache, st := r.st, reqs := r.reqs, emits := r.emits }

/-- `aiConfig(fileName, defaultValue?)`. -/
def aiConfig (net : Net) (s : ClientState) (fileName : String)
    (defaultValue : Option String) : OpResult (Option AiConfig) :=
  let req := getReq ("/ai-configs/" ++ encodeURIComponent fileName)
  match net.aiOne req with
  | .ok cfg => { res := .ok (some cfg), st := s, reqs := [req], emits := [] }
  | .error _ =>
    match defaultValue with
    | some d =>
      { res := .ok (some { file_name := fileName, file_type := "skill",
                           content := d, folder := none }),
        st := s, reqs := [req], emits := [] }
    | none => { res := .ok none, st := s, reqs := [req], emits := [] }

/-- Options of `listAiConfigs`. -/
structure ListAiConfigsOptions where
  fileType : Option String
  folder : Option String
  deriving DecidableEq, Repr

/-- `listAiConfigs(options?)`. -/
def listAiConfigs (net : Net) (s : ClientState)
    (options : Option ListAiConfigsOptions) : OpResult (List AiConfig) :=
  let req := getReq "/ai-configs"
  match net.aiAll req with
  | .ok cfgs =>
    let cfgs1 := match options.bind (·.fileType) with
      | some ft => cfgs.filter fun c => c.file_type == ft
      | none => cfgs
    let cfgs2 := match options.bind (·.folder) with
      | some f => cfgs1.filter fun c => c.folder == some f
      | none => cfgs1
    { res := .ok cfgs2, st := s, reqs := [req], emits := [] }
  | .error _ => { res := .ok [], st := s, reqs := [req], emits := [] }

/-- The browser constructor's synchronous credential check:
`if (!config.sdkKey) throw`; a missing or empty (falsy) key throws. -/
def constructorThrows (sdkKey : Option String) : Bool :=
  match sdkKey with
  | none => true
  | some k => k == ""

/-- An oracle on which every request fails (non-success status or
timeout on every call). -/
def netDown : Net :=
  { flagsAll := fun _ => .error (), flagOne := fun _ => .error (),
    configsAll := fun _ => .error (), configOne := fun _ => .error (),
    aiOne := fun _ => .error (), aiAll := fun _ => .error () }

/-- A ready client with empty caches. -/
def readyState : ClientState := { cache := [], configCache := [], ready := true }

/-- The concrete context `{user:{id:"user_1"}}`. -/
def ctxUser1 : EvaluationContext := [("user", .obj [("id", .str "user_1")])]

end FlagDash

namespace FlagDash

-- sanity checks of the encoder on the spec's concrete fixture
example : encodeURIComponent "test@example.com" = "test%40example.com" := by decide
example :
    buildContextParams
      [("user", .obj [("id", .str "user_1"), ("email", .str "test@example.com")])]
    = "user_id=user_1&user_email=test%40example.com" := by decide

/-- C2: the context encoder is a pure function that emits, in insertion
order, one percent-encoded `key=value` pair per entry — an object-valued
top-level `user` entry contributing one pair per nested property
(`user_id` for the nested `id`, `user_<name>` otherwise) and every other
entry contributing `<name>=<value>` with non-string values stringified and
no key filtered out; in particular
`{user:{id:"user_1", email:"test@example.com"}}` encodes to
`user_id=user_1&user_email=test%40example.com`. -/
theorem buildContextParams_spec (context : EvaluationContext) :
    buildContextParams context = String.intercalate "&" (specContextPairs context)
    ∧ buildContextParams
        [("user", .obj [("id", .str "user_1"), ("email", .str "test@example.com")])]
      = "user_id=user_1&user_email=test%40example.com" := by
  constructor
  · unfold buildContextParams specContextPairs
    rw [foldl_append_entryParams]
    simp [entryParams_eq_spec]
  · decide

end FlagDash

namespace FlagDash

/-- C1 counterexample: `allFlags` with a context on a transport failure —
its promise rejects (the request is not wrapped in try/catch), and no
`error` event is emitted. -/
theorem allFlags_context_rejects :
    promiseResolves (allFlags netDown readyState (some ctxUser1)).res = false ∧
    (allFlags netDown readyState (some ctxUser1)).emits = [] :=
  ⟨rfl, rfl⟩

/-- C1 (amended): `flag` with a context, `flagDetail`, `aiConfig` and
`listAiConfigs` never reject on transport failure; `flag` without a
context, `config`, `allConfigs` and context-free `allFlags` never reject
once the client is ready; the constructor throws synchronously exactly
when the sdkKey credential is missing (falsy).  (`allFlags` with a
context, and the context-free operations invoked before readiness when
the refresh they await fails, do propagate the transport error — see the
counterexample.) -/
theorem facade_reject_behavior :
    (∀ net s key ctx d, promiseResolves (flag net s key (some ctx) d).res = true) ∧
    (∀ net s key d, s.ready = true →
      promiseResolves (flag net s key none d).res = true) ∧
    (∀ net s key ctx d, promiseResolves (flagDetail net s key ctx d).res = true) ∧
    (∀ net s n d, promiseResolves (aiConfig net s n d).res = true) ∧
    (∀ net s o, promiseResolves (listAiConfigs net s o).res = true) ∧
    (∀ net s key d, s.ready = true →
      promiseResolves (config net s key d).res = true) ∧
    (∀ net s, s.ready = true → promiseResolves (allConfigs net s).res = true) ∧
    (∀ net s, s.ready = true → promiseResolves (allFlags net s none).res = true) ∧
    constructorThrows none = true ∧ constructorThrows (some "") = true ∧
    (∀ k, k ≠ "" → constructorThrows (some k) = false) := by
  refine ⟨?_, ?_, ?_, ?_, ?_, ?_, ?_, ?_, rfl, rfl, ?_⟩
  · intro net s key ctx d
    cases h : net.flagOne (getReq (flagPath key (buildContextParams ctx))) <;>
      simp [flag, h, promiseResolves]
  · intro net s key d hready
    cases hc : s.cache.lookup key <;> simp [flag, hready, hc, promiseResolves]
  · intro net s key ctx d
    cases h : net.flagOne
        (getReq (flagPath key (match ctx with
          | some c => buildContextParams c | none => ""))) <;>
      simp [flagDetail, h, promiseResolves]
  · intro net s n d
    cases h : net.aiOne (getReq ("/ai-configs/" ++ encodeURIComponent n)) <;>
      cases d <;> simp [aiConfig, h, promiseResolves]
  · intro net s o
    cases h : net.aiAll (getReq "/ai-configs") <;>
      simp [listAiConfigs, h, promiseResolves]
  · intro net s key d hready
    cases hc : s.configCache.lookup key
    · cases h : net.configOne (getReq ("/configs/" ++ encodeURIComponent key)) <;>
        simp [config, configTail, hready, hc, h, promiseResolves]
    · simp [config, hc, promiseResolves]
  · intro net s hready
    simp [allConfigs, hready, promiseResolves]
  · intro net s hready
    simp [allFlags, hready, promiseResolves]
  · intro k hk
    simp [constructorThrows, hk]

/-- Witness for the amended C1: the hypothesis-bearing conjuncts applied
at concrete inputs (a ready client over a failing network, and a concrete
non-empty credential). -/
theorem facade_reject_behavior_witness :
    promiseResolves (flag netDown readyState "k" none none).res = true ∧
    promiseResolves (config netDown readyState "k" none).res = true ∧
    promiseResolves (allConfigs netDown readyState).res = true ∧
    promiseResolves (allFlags netDown readyState none).res = true ∧
    constructorThrows (some "client_pk_1") = false :=
  ⟨facade_reject_behavior.2.1 netDown readyState "k" none rfl,
   facade_reject_behavior.2.2.2.2.2.1 netDown readyState "k" none rfl,
   facade_reject_behavior.2.2.2.2.2.2.1 netDown readyState rfl,
   facade_reject_behavior.2.2.2.2.2.2.2.1 netDown readyState rfl,
   facade_reject_behavior.2.2.2.2.2.2.2.2.2.2 "client_pk_1" (by decide)⟩

/-- C3: `flag(key, context)` with a supplied context issues exactly one
request — a GET of `/flags/<key>` with no body and the encoded context as
its query string — leaves the state unchanged, resolves to the
server-evaluated value (default when the server value is absent) on
success, and to the last cached value for the key, else the default, on
transport failure. -/
theorem flag_context_single_get (net : Net) (s : ClientState) (key : String)
    (ctx : EvaluationContext) (d : Option JVal) :
    (flag net s key (some ctx) d).reqs
        = [getReq (flagPath key (buildContextParams ctx))] ∧
    (getReq (flagPath key (buildContextParams ctx))).method = "GET" ∧
    (getReq (flagPath key (buildContextParams ctx))).body = none ∧
    (flag net s key (some ctx) d).st = s ∧
    (flag net s key (some ctx) d).res = .ok
      (match net.flagOne (getReq (flagPath key (buildContextParams ctx))) with
       | .ok r => r.value.orElse fun _ => d
       | .error _ => (s.cache.lookup key).orElse fun _ => d) := by
  cases h : net.flagOne (getReq (flagPath key (buildContextParams ctx))) <;>
    simp [flag, h] <;> exact ⟨rfl, rfl⟩

/-- C8: `flagDetail` always performs exactly one network call, never
writes the client state, its result never depends on the cached state,
and on request failure it resolves to
`{key, value: default, reason: "default", variationKey: null}`. -/
theorem flagDetail_spec (net : Net) (s : ClientState) (key : String)
    (ctx : Option EvaluationContext) (d : Option JVal) :
    (flagDetail net s key ctx d).reqs
        = [getReq (flagPath key (match ctx with
            | some c => buildContextParams c | none => ""))] ∧
    (flagDetail net s key ctx d).st = s ∧
    (∀ s', (flagDetail net s' key ctx d).res = (flagDetail net s key ctx d).res) ∧
    (net.flagOne (getReq (flagPath key (match ctx with
        | some c => buildContextParams c | none => ""))) = .error () →
      (flagDetail net s key ctx d).res =
        .ok { key := key, value := d, reason := "default", variationKey := none }) := by
  cases h : net.flagOne
      (getReq (flagPath key (match ctx with
        | some c => buildContextParams c | none => ""))) with
  | error e =>
    exact ⟨by simp [flagDetail, h], by simp [flagDetail, h],
           fun s' => by simp [flagDetail, h], fun _ => by simp [flagDetail, h]⟩
  | ok r =>
    exact ⟨by simp [flagDetail, h], by simp [flagDetail, h],
           fun s' => by simp [flagDetail, h], fun hfail => by simp [h] at hfail⟩

/-- Witness for C8 at a failing network and concrete inputs. -/
theorem flagDetail_spec_witness :
    (flagDetail netDown readyState "checkout-flow" none none).res =
      .ok { key := "checkout-flow", value := none, reason := "default",
            variationKey := none } :=
  (flagDetail_spec netDown readyState "checkout-flow" none none).2.2.2 rfl

/-- C9: `aiConfig(fileName, default?)` never rejects; on request failure
it resolves to `null` without a default, and with a default string to a
synthesized file whose content is the default, whose file_name is the
requested name, whose folder is null, and whose file_type is the generic
classification `"skill"`. -/
theorem aiConfig_failure_fallback (net : Net) (s : ClientState)
    (fileName : String) (d : Option String) :
    promiseResolves (aiConfig net s fileName d).res = true ∧
    (net.aiOne (getReq ("/ai-configs/" ++ encodeURIComponent fileName)) = .error () →
      (aiConfig net s fileName d).res = .ok (match d with
        | none => none
        | some c => some { file_name := fileName, file_type := "skill",
                           content := c, folder := none })) := by
  cases h : net.aiOne (getReq ("/ai-configs/" ++ encodeURIComponent fileName))
  · refine ⟨by cases d <;> simp [aiConfig, h, promiseResolves], fun _ => ?_⟩
    cases d <;> simp [aiConfig, h]
  · exact ⟨by cases d <;> simp [aiConfig, h, promiseResolves],
      fun hfail => by simp [h] at hfail⟩

/-- Witness for C9 on a simulated failing request, with and without a
default. -/
theorem aiConfig_failure_fallback_witness :
    (aiConfig netDown readyState "agent.md" none).res = .ok none ∧
    (aiConfig netDown readyState "agent.md" (some "dflt")).res =
      .ok (some { file_name := "agent.md", file_type := "skill",
                  content := "dflt", folder := none }) :=
  ⟨(aiConfig_failure_fallback netDown readyState "agent.md" none).2 rfl,
   (aiConfig_failure_fallback netDown readyState "agent.md" (some "dflt")).2 rfl⟩

end FlagDash

namespace FlagDash.SSE

/-! ## The stream-reconnect state machine (`connectSSE` / `fallbackToPolling`)

Constants in the source: `SSE_MAX_RETRIES = 5`,
`SSE_FALLBACK_POLLING_INTERVAL = 30_000` ms.  We embed the mutable fields
the `es.onerror` handler, the `connected` handler and
`fallbackToPolling`/`startPolling` touch, with timers as explicit values:
`sseRetryTimer` holds the pending backoff delay in ms, `pollingTimer` the
running interval in ms. -/

structure SseState where
  sseRetryCount : Nat
  sseRetryTimer : Option Nat
  eventSourceOpen : Bool
  pollingTimer : Option Nat
  refreshInterval : Option Nat
  deriving DecidableEq, Repr

/-- `startPolling()`: no-op when a polling timer already runs, else
`setInterval(..., this.opts.refreshInterval!)`. -/
def startPolling (s : SseState) : SseState :=
  if s.pollingTimer.isSome then s
  else { s with pollingTimer := some (s.refreshInterval.getD 0) }

/-- `fallbackToPolling()`: choose the configured refresh interval when
positive, else the 30 s fallback; store it and start polling. -/
def fallbackToPolling (s : SseState) : SseState :=
  let interval := match s.refreshInterval with
    | some ri => if 0 < ri then ri else 30000
    | none => 30000
  startPolling { s with refreshInterval := some interval }

/-- The `es.onerror` handler: close the stream, bump the retry counter;
at ≤ 5 schedule one reconnect after `2^(count-1) * 1000` ms, else fall
back to polling permanently. -/
def onSseError (s : SseState) : SseState :=
  let s1 := { s with eventSourceOpen := false,
                     sseRetryCount := s.sseRetryCount + 1 }
  if s1.sseRetryCount ≤ 5 then
    { s1 with sseRetryTimer := some (2 ^ (s1.sseRetryCount - 1) * 1000) }
  else
    fallbackToPolling s1

/-- The `connected` listener: reset the retry counter. -/
def onSseConnected (s : SseState) : SseState :=
  { s with sseRetryCount := 0 }

/-- C4: the i-th consecutive stream error (taking the retry counter to i)
with i ≤ 5 schedules exactly one reconnect after `2^(i-1)` seconds and
does not start polling; an error taking the counter above 5 falls back to
polling at the configured refresh interval when positive, else at the
30-second fallback, scheduling no reconnect; a `connected` event resets
the counter to 0. -/
theorem sse_backoff_schedule (s : SseState) (i : Nat) (hi : i = s.sseRetryCount + 1) :
    (i ≤ 5 →
      onSseError s = { s with eventSourceOpen := false, sseRetryCount := i,
                              sseRetryTimer := some (2 ^ (i - 1) * 1000) }) ∧
    (5 < i → s.pollingTimer = none →
      (onSseError s).sseRetryTimer = s.sseRetryTimer ∧
      (onSseError s).sseRetryCount = i ∧
      (onSseError s).pollingTimer = some (match s.refreshInterval with
        | some ri => if 0 < ri then ri else 30000
        | none => 30000) ∧
      (onSseError s).refreshInterval = some (match s.refreshInterval with
        | some ri => if 0 < ri then ri else 30000
        | none => 30000)) ∧
    (onSseConnected s).sseRetryCount = 0 := by
  subst hi
  refine ⟨fun hle => ?_, fun hgt hpoll => ?_, rfl⟩
  · simp [onSseError, hle]
  · have hnle : ¬ s.sseRetryCount + 1 ≤ 5 := by omega
    cases hri : s.refreshInterval with
    | none =>
      simp [onSseError, hnle, fallbackToPolling, startPolling, hri, hpoll]
    | some ri =>
      by_cases hpos : 0 < ri <;>
        simp [onSseError, hnle, fallbackToPolling, startPolling, hri, hpoll, hpos]

/-- Witness for C4: the five backoff delays 1s, 2s, 4s, 8s, 16s, the
fallback after the sixth error, and the reset on `connected`, at concrete
states. -/
theorem sse_backoff_schedule_witness :
    (onSseError ⟨0, none, true, none, none⟩).sseRetryTimer = some 1000 ∧
    (onSseError ⟨1, none, true, none, none⟩).sseRetryTimer = some 2000 ∧
    (onSseError ⟨2, none, true, none, none⟩).sseRetryTimer = some 4000 ∧
    (onSseError ⟨3, none, true, none, none⟩).sseRetryTimer = some 8000 ∧
    (onSseError ⟨4, none, true, none, none⟩).sseRetryTimer = some 16000 ∧
    (onSseError ⟨5, none, true, none, none⟩).pollingTimer = some 30000 ∧
    (onSseError ⟨5, none, true, none, some 10000⟩).pollingTimer = some 10000 ∧
    (onSseConnected ⟨3, none, true, none, none⟩).sseRetryCount = 0 := by
  refine ⟨?_, ?_, ?_, ?_, ?_, ?_, ?_,
          (sse_backoff_schedule ⟨3, none, true, none, none⟩ 4 rfl).2.2⟩
  · have h := (sse_backoff_schedule ⟨0, none, true, none, none⟩ 1 rfl).1 (by decide)
    rw [h]; decide
  · have h := (sse_backoff_schedule ⟨1, none, true, none, none⟩ 2 rfl).1 (by decide)
    rw [h]; decide
  · have h := (sse_backoff_schedule ⟨2, none, true, none, none⟩ 3 rfl).1 (by decide)
    rw [h]; decide
  · have h := (sse_backoff_schedule ⟨3, none, true, none, none⟩ 4 rfl).1 (by decide)
    rw [h]; decide
  · have h := (sse_backoff_schedule ⟨4, none, true, none, none⟩ 5 rfl).1 (by decide)
    rw [h]; decide
  · exact ((sse_backoff_schedule ⟨5, none, true, none, none⟩ 6 rfl).2.1
      (by decide) rfl).2.2.1
  · exact ((sse_backoff_schedule ⟨5, none, true, none, some 10000⟩ 6 rfl).2.1
      (by decide) rfl).2.2.1

end FlagDash.SSE

namespace FlagDash.Node

open FlagDash

/-! ## The server-tier client (`packages/node/src/client.ts`,
`FlagDashServerClient`)

TTL-cached evaluation.  `Date.now()` becomes an explicit `now` argument;
a `Map<string, CacheEntry<unknown>>` becomes an association list keyed by
the cache key strings the source builds (`"flag:" ++ key`,
`"config:" ++ key`).  A stored value is `Option JVal` because
`config()` caches `res.value ?? default`, which can be `undefined`. -/

/-- `CacheEntry<T>`. -/
structure CacheEntry where
  value : Option JVal
  expiresAt : Nat
  deriving DecidableEq, Repr

/-- `Map.set`: replace in place when present, else append. -/
def assocSet {β : Type} : List (String × β) → String → β → List (String × β)
  | [], k, v => [(k, v)]
  | (k', v') :: rest, k, v =>
    if k' == k then (k, v) :: rest else (k', v') :: assocSet rest k v

/-- State of `FlagDashServerClient`. -/
structure ServerState where
  flagCache : List (String × CacheEntry)
  configCache : List (String × CacheEntry)
  allFlagsCache : Option (List (String × JVal) × Nat)
  cacheTTL : Nat
  deriving Repr

/-- The constructor's options: `cacheTTL: config.cacheTTL ?? 60_000`,
with empty caches. -/
def initServerState (cacheTTL : Option Nat) : ServerState :=
  { flagCache := [], configCache := [], allFlagsCache := none,
    cacheTTL := cacheTTL.getD 60000 }

/-- Network oracle for the two endpoints C5 exercises. -/
structure NodeNet where
  /-- `GET /server/flags`: `res.evaluated`. -/
  serverFlags : Request → Except Unit (List (String × JVal))
  /-- `GET /configs/{key}`: `res.value`. -/
  configOne : Request → Except Unit (Option JVal)

/-- `getCached(cache, key)`: with TTL 0 always absent; otherwise a live
entry's value, evicting an expired entry. Returns the possibly mutated
cache. -/
def getCached (ttl : Nat) (cache : List (String × CacheEntry)) (key : String)
    (now : Nat) : Option JVal × List (String × CacheEntry) :=
  if ttl = 0 then (none, cache)
  else
    match cache.lookup key with
    | some entry =>
      if now < entry.expiresAt then (entry.value, cache)
      else (none, cache.eraseP (fun kv => kv.1 == key))
    | none => (none, cache)

/-- `setCache(cache, key, value)`: no-op with TTL 0, else store with
expiry `now + ttl`. -/
def setCache (ttl : Nat) (cache : List (String × CacheEntry)) (key : String)
    (value : Option JVal) (now : Nat) : List (String × CacheEntry) :=
  if ttl = 0 then cache else assocSet cache key ⟨value, now + ttl⟩

/-- `fetchAllFlags()`: one `GET /server/flags`; on success cache the full
set and seed each individual `flag:<key>` entry. -/
def fetchAllFlags (net : NodeNet) (s : ServerState) (now : Nat) :
    Except Unit (List (String × JVal)) × ServerState × List Request :=
  let req := getReq "/server/flags"
  match net.serverFlags req with
  | .ok flags =>
    let s1 := { s with allFlagsCache := some (flags, now + s.cacheTTL) }
    let fc2 := flags.foldl
      (fun fc kv => setCache s.cacheTTL fc ("flag:" ++ kv.1) (some kv.2) now)
      s1.flagCache
    (.ok flags, { s1 with flagCache := fc2 }, [req])
  | .error e => (.error e, s, [req])

/-- The no-context path of `flag(key, undefined, default)`: cache check,
then `fetchAllFlags`. -/
def flagNoCtx (net : NodeNet) (s : ServerState) (now : Nat) (key : String)
    (d : Option JVal) : Except Unit (Option JVal) × ServerState × List Request :=
  let r := getCached s.cacheTTL s.flagCache ("flag:" ++ key) now
  let s0 := { s with flagCache := r.2 }
  match r.1 with
  | some v => (.ok (some v), s0, [])
  | none =>
    match fetchAllFlags net s0 now with
    | (.ok flags, s1, reqs) => (.ok ((flags.lookup key).orElse fun _ => d), s1, reqs)
    | (.error e, s1, reqs) => (.error e, s1, reqs)

/-- `config(key, default)`: cache check, then a caught single-key fetch
whose result (`res.value ?? default`) is cached. -/
def configOp (net : NodeNet) (s : ServerState) (now : Nat) (key : String)
    (d : Option JVal) : Except Unit (Option JVal) × ServerState × List Request :=
  let r := getCached s.cacheTTL s.configCache ("config:" ++ key) now
  let s0 := { s with configCache := r.2 }
  match r.1 with
  | some v => (.ok (some v), s0, [])
  | none =>
    let req := getReq ("/configs/" ++ encodeURIComponent key)
    match net.configOne req with
    | .ok v =>
      let value := v.orElse fun _ => d
      (.ok value,
       { s0 with configCache :=
           setCache s0.cacheTTL s0.configCache ("config:" ++ key) value now },
       [req])
    | .error _ => (.ok d, s0, [req])

lemma flagNoCtx_ttl0 (net : NodeNet) (s : ServerState) (now : Nat)
    (key : String) (d : Option JVal) (h : s.cacheTTL = 0) :
    (flagNoCtx net s now key d).2.2.length = 1 ∧
    (flagNoCtx net s now key d).2.1.cacheTTL = 0 := by
  cases hn : net.serverFlags (getReq "/server/flags") <;>
    simp [flagNoCtx, getCached, fetchAllFlags, h, hn]

lemma configOp_ttl0 (net : NodeNet) (s : ServerState) (now : Nat)
    (key : String) (d : Option JVal) (h : s.cacheTTL = 0) :
    (configOp net s now key d).2.2.length = 1 ∧
    (configOp net s now key d).2.1.cacheTTL = 0 := by
  cases hn : net.configOne (getReq ("/configs/" ++ encodeURIComponent key)) <;>
    simp [configOp, getCached, setCache, h, hn]

/-- C5: with `cacheTTL = 0` caching is disabled entirely — every cache
`get` is absent (and mutates nothing), every cache `set` stores nothing —
so every no-context `flag()` call and every `config()` call issues
exactly one network request, including the second of two back-to-back
calls for the same key. -/
theorem cacheTTL_zero_disables_caching (net : NodeNet) (s : ServerState)
    (now₁ now₂ : Nat) (key ckey : String) (d : Option JVal)
    (h : s.cacheTTL = 0) :
    (∀ cache k n, getCached s.cacheTTL cache k n = (none, cache)) ∧
    (∀ cache k v n, setCache s.cacheTTL cache k v n = cache) ∧
    (flagNoCtx net s now₁ key d).2.2.length = 1 ∧
    (flagNoCtx net (flagNoCtx net s now₁ key d).2.1 now₂ key d).2.2.length = 1 ∧
    (configOp net s now₁ ckey d).2.2.length = 1 ∧
    (configOp net (configOp net s now₁ ckey d).2.1 now₂ ckey d).2.2.length = 1 := by
  obtain ⟨hf1, hf1ttl⟩ := flagNoCtx_ttl0 net s now₁ key d h
  obtain ⟨hc1, hc1ttl⟩ := configOp_ttl0 net s now₁ ckey d h
  refine ⟨fun cache k n => by simp [getCached, h],
          fun cache k v n => by simp [setCache, h],
          hf1,
          (flagNoCtx_ttl0 net _ now₂ key d hf1ttl).1,
          hc1,
          (configOp_ttl0 net _ now₂ ckey d hc1ttl).1⟩

/-- A server oracle that always succeeds (so the second call would be a
cache hit if caching were active). -/
def nodeNetOk : NodeNet :=
  { serverFlags := fun _ => .ok [("f", .scalar (.bool true))],
    configOne := fun _ => .ok (some (.scalar (.str "v"))) }

/-- Witness for C5: a client constructed with `cacheTTL = 0` over a
succeeding network still issues one request on the second back-to-back
call for the same key. -/
theorem cacheTTL_zero_disables_caching_witness :
    ((flagNoCtx nodeNetOk
        (flagNoCtx nodeNetOk (initServerState (some 0)) 5 "f" none).2.1
        6 "f" none).2.2.length = 1) ∧
    ((configOp nodeNetOk
        (configOp nodeNetOk (initServerState (some 0)) 5 "c" none).2.1
        6 "c" none).2.2.length = 1) :=
  ⟨(cacheTTL_zero_disables_caching nodeNetOk (initServerState (some 0))
      5 6 "f" "c" none rfl).2.2.2.1,
   (cacheTTL_zero_disables_caching nodeNetOk (initServerState (some 0))
      5 6 "f" "c" none rfl).2.2.2.2.2⟩

end FlagDash.Node

namespace FlagDash.Lifecycle

open FlagDash

/-! ## Client lifecycle: constructor continuation, timers, `destroy()`

The constructor issues the initial parallel fetch and attaches a
continuation (`.then`) that marks the client ready and starts background
updates; `pendingStartup` records that this continuation has not yet run.
`destroy()` clears the polling timer, the stream, the backoff timer, and
the listeners — and nothing else.  Timer handles become booleans and
elapsing time becomes an explicit list of timer-expiry events; each event
fires only if its timer handle is live, and we count the network calls
each firing issues (a polling tick runs `refreshFlags` and
`refreshConfigs`, i.e. two; a backoff expiry re-runs `connectSSE`, one
stream-open). -/

structure LcConfig where
  realtime : Bool
  refreshInterval : Option Nat
  esAvailable : Bool
  deriving DecidableEq, Repr

structure LcState where
  ready : Bool
  pendingStartup : Bool
  realtime : Bool
  refreshInterval : Option Nat
  esAvailable : Bool
  pollingTimer : Bool
  eventSourceOpen : Bool
  sseRetryTimer : Bool
  listeners : List (String × List Nat)
  deriving DecidableEq, Repr

/-- The constructor: no timers yet, not ready, startup continuation
scheduled. -/
def initState (cfg : LcConfig) : LcState :=
  { ready := false, pendingStartup := true, realtime := cfg.realtime,
    refreshInterval := cfg.refreshInterval, esAvailable := cfg.esAvailable,
    pollingTimer := false, eventSourceOpen := false, sseRetryTimer := false,
    listeners := [] }

/-- `startPolling()`. -/
def startPolling (s : LcState) : LcState :=
  if s.pollingTimer then s else { s with pollingTimer := true }

/-- `fallbackToPolling()`. -/
def fallbackToPolling (s : LcState) : LcState :=
  let interval := match s.refreshInterval with
    | some ri => if 0 < ri then ri else 30000
    | none => 30000
  startPolling { s with refreshInterval := some interval }

/-- `connectSSE()`, reduced to its channel effects: open the stream when
`EventSource` exists, else fall back to polling immediately. -/
def connectSSE (s : LcState) : LcState :=
  if s.esAvailable then { s with eventSourceOpen := true }
  else fallbackToPolling s

/-- The constructor's `.then`/`.catch` continuation, run when the initial
parallel fetch settles: on success set ready, emit `ready`, and start
real-time or polling updates; on failure do nothing. -/
def startupSettle (success : Bool) (s : LcState) : LcState :=
  if s.pendingStartup = false then s
  else
    let s0 := { s with pendingStartup := false }
    if success then
      let s1 := { s0 with ready := true }
      if s1.realtime then connectSSE s1
      else match s1.refreshInterval with
        | some ri => if 0 < ri then startPolling s1 else s1
        | none => s1
    else s0

/-- `destroy()`: clear the polling interval, close the stream, clear the
backoff timer, clear all listeners. -/
def destroy (s : LcState) : LcState :=
  { s with pollingTimer := false, eventSourceOpen := false,
           sseRetryTimer := false, listeners := [] }

/-- A timer coming due: a polling-interval tick or a backoff expiry. -/
inductive TimerEv where
  | pollTick
  | backoffFire
  deriving DecidableEq, Repr

/-- Fire one due timer: a live polling tick issues the two refresh
requests; a live backoff expiry clears its handle and re-runs
`connectSSE` (one stream open). A cleared timer does nothing. -/
def fireTimer (s : LcState) : TimerEv → LcState × Nat
  | .pollTick => if s.pollingTimer then (s, 2) else (s, 0)
  | .backoffFire =>
    if s.sseRetryTimer then (connectSSE { s with sseRetryTimer := false }, 1)
    else (s, 0)

/-- Advance time through a sequence of due timers, summing the network
calls issued. -/
def advance : LcState → List TimerEv → LcState × Nat
  | s, [] => (s, 0)
  | s, e :: es =>
    let r := fireTimer s e
    let r2 := advance r.1 es
    (r2.1, r.2 + r2.2)

lemma advance_no_timers (s : LcState) (hp : s.pollingTimer = false)
    (hr : s.sseRetryTimer = false) (evs : List TimerEv) :
    advance s evs = (s, 0) := by
  induction evs with
  | nil => rfl
  | cons e es ih => cases e <;> simp [advance, fireTimer, hp, hr, ih]

/-- C6: after `destroy()` the polling timer is stopped, the stream is
closed, the backoff timer is cleared and the listeners are removed, and
advancing time past any number of polling intervals or backoff delays
issues zero further network calls. -/
theorem destroy_stops_updates (s : LcState) (evs : List TimerEv) :
    (destroy s).pollingTimer = false ∧
    (destroy s).eventSourceOpen = false ∧
    (destroy s).sseRetryTimer = false ∧
    (destroy s).listeners = [] ∧
    (advance (destroy s) evs).2 = 0 := by
  refine ⟨rfl, rfl, rfl, rfl, ?_⟩
  rw [advance_no_timers (destroy s) rfl rfl evs]

lemma startPolling_ready (s : LcState) : (startPolling s).ready = s.ready := by
  unfold startPolling; split <;> rfl

lemma startPolling_pollingTimer (s : LcState) :
    (startPolling s).pollingTimer = true := by
  unfold startPolling; split <;> simp_all

lemma fallbackToPolling_ready (s : LcState) :
    (fallbackToPolling s).ready = s.ready := by
  unfold fallbackToPolling; exact startPolling_ready _

lemma connectSSE_ready (s : LcState) : (connectSSE s).ready = s.ready := by
  unfold connectSSE; split
  · rfl
  · exact fallbackToPolling_ready _

/-- C10 (implicit): `destroy()` called after construction but before the
initial parallel fetch settles does not cancel the startup continuation —
when both fetches then succeed the client still becomes ready and still
starts background updates (stream when realtime was configured and the
stream primitive exists, polling when a positive refresh interval was
configured). -/
theorem destroy_before_ready_still_starts (cfg : LcConfig) :
    (startupSettle true (destroy (initState cfg))).ready = true ∧
    (cfg.realtime = true → cfg.esAvailable = true →
      (startupSettle true (destroy (initState cfg))).eventSourceOpen = true) ∧
    (cfg.realtime = false → ∀ ri, cfg.refreshInterval = some ri → 0 < ri →
      (startupSettle true (destroy (initState cfg))).pollingTimer = true) := by
  refine ⟨?_, ?_, ?_⟩
  · cases hrt : cfg.realtime
    · cases hri : cfg.refreshInterval with
      | none => simp [startupSettle, destroy, initState, hrt, hri]
      | some ri =>
        by_cases hpos : 0 < ri <;>
          simp [startupSettle, destroy, initState, hrt, hri, hpos,
                startPolling_ready]
    · simp [startupSettle, destroy, initState, hrt, connectSSE_ready]
  · intro hrt hes
    simp [startupSettle, destroy, initState, hrt, connectSSE, hes]
  · intro hrt ri hri hpos
    simp [startupSettle, destroy, initState, hrt, hri, hpos,
          startPolling_pollingTimer]

/-- Witness for C10: a realtime client and a polling client, each
destroyed right after construction, still connect the stream / start
polling once the startup fetch succeeds. -/
theorem destroy_before_ready_still_starts_witness :
    (startupSettle true (destroy (initState ⟨true, none, true⟩))).eventSourceOpen
        = true ∧
    (startupSettle true (destroy (initState ⟨false, some 1000, true⟩))).pollingTimer
        = true :=
  ⟨(destroy_before_ready_still_starts ⟨true, none, true⟩).2.1 rfl rfl,
   (destroy_before_ready_still_starts ⟨false, some 1000, true⟩).2.2 rfl
      1000 rfl (by decide)⟩

end FlagDash.Lifecycle

namespace FlagDash.Events

open FlagDash.Node (assocSet)

/-! ## The event bus (`FlagDashClient.on` / `emit`)

`Map<FlagDashEvent, Set<EventListener>>` becomes an association list of
listener-id lists in insertion order (JS `Set` iterates in insertion
order and ignores duplicate adds).  A listener's behaviour is an
arbitrary function `run : Nat → Except Unit Unit` — `Except.error` is a
listener that throws. -/

abbrev Listeners := List (String × List Nat)

/-- The set of listeners registered for an event (empty when the map has
no entry). -/
def getListeners (m : Listeners) (ev : String) : List Nat :=
  (m.lookup ev).getD []

/-- JS `Set.add`: no duplicate, appended at the end otherwise. -/
def addToSet (l : Nat) (ls : List Nat) : List Nat :=
  if l ∈ ls then ls else ls ++ [l]

/-- `on(event, listener)`: ensure the event's set exists, add the
listener. -/
def onEvent (m : Listeners) (ev : String) (l : Nat) : Listeners :=
  assocSet m ev (addToSet l (getListeners m ev))

/-- The unsubscribe closure `on` returns:
`this.listeners.get(event)?.delete(listener)`. -/
def unsubscribe (m : Listeners) (ev : String) (l : Nat) : Listeners :=
  match m.lookup ev with
  | some ls => assocSet m ev (ls.filter fun x => !(x == l))
  | none => m

/-- The `emit` loop body over the listener set: each listener is invoked
inside its own try/catch, whose both outcomes continue identically; the
returned trace is the invocation order, the returned `Except` is what the
loop as a whole raises. -/
def invokeAll (run : Nat → Except Unit Unit) : List Nat → List Nat × Except Unit Unit
  | [] => ([], .ok ())
  | l :: rest =>
    let r := invokeAll run rest
    match run l with
    | .ok _ => (l :: r.1, r.2)
    | .error _ => (l :: r.1, r.2)

/-- `emit(event, data)`: invoke the event's current listeners. -/
def emit (m : Listeners) (run : Nat → Except Unit Unit) (ev : String) :
    List Nat × Except Unit Unit :=
  invokeAll run (getListeners m ev)

lemma lookup_assocSet {β : Type} (m : List (String × β)) (k : String) (v : β) :
    (assocSet m k v).lookup k = some v := by
  induction m with
  | nil => simp [assocSet]
  | cons kv rest ih =>
    by_cases hk : kv.1 = k
    · simp [assocSet, hk]
    · have hkb : (kv.1 == k) = false := by simpa using hk
      have hkb2 : (k == kv.1) = false := by simpa using Ne.symm hk
      simp [assocSet, hkb, List.lookup, hkb2, ih]

lemma getListeners_on (m : Listeners) (ev : String) (l : Nat) :
    getListeners (onEvent m ev l) ev = addToSet l (getListeners m ev) := by
  simp [onEvent, getListeners, lookup_assocSet]

lemma invokeAll_trace (run : Nat → Except Unit Unit) (ls : List Nat) :
    (invokeAll run ls).1 = ls := by
  induction ls with
  | nil => rfl
  | cons l rest ih =>
    cases h : run l <;> simp [invokeAll, h, ih]

lemma invokeAll_ok (run : Nat → Except Unit Unit) (ls : List Nat) :
    (invokeAll run ls).2 = .ok () := by
  induction ls with
  | nil => rfl
  | cons l rest ih =>
    cases h : run l <;> simp [invokeAll, h, ih]

/-- C7: `on(event, listener)` registers the listener and returns an
unsubscribe function that removes it; `emit(event, payload)` invokes
every listener currently registered for the event, in insertion order,
even when some listeners throw — each exception is caught and discarded,
so every later listener still runs and `emit` itself never raises. -/
theorem event_bus_spec (m : Listeners) (ev : String) (l : Nat)
    (run : Nat → Except Unit Unit) :
    l ∈ getListeners (onEvent m ev l) ev ∧
    l ∉ getListeners (unsubscribe (onEvent m ev l) ev l) ev ∧
    (emit (onEvent m ev l) run ev).1 = getListeners (onEvent m ev l) ev ∧
    (emit (onEvent m ev l) run ev).2 = .ok () := by
  refine ⟨?_, ?_, invokeAll_trace run _, invokeAll_ok run _⟩
  · rw [getListeners_on]
    unfold addToSet
    split
    · assumption
    · simp
  · unfold unsubscribe
    rw [show (onEvent m ev l).lookup ev = some (addToSet l (getListeners m ev))
      from lookup_assocSet m ev (addToSet l (getListeners m ev))]
    simp [getListeners, lookup_assocSet]

end FlagDash.Events
